import Mathlib

/-!
Verification of the TinkerRTK WiFi telemetry-dashboard repository
(ESP32-BaseStation-WiFi-DirectTransmit, ESP32-Rover-WiFi-DirectTransmit).

The repository's header files carry the shipped HTML page templates verbatim;
they are embedded below as Lean string literals (with `{`, `}`, `'` and `"`
written via escape sequences).  The stateful core (Telemetry Store, Event
Broadcaster, Template Renderer, Page Router) is not part of the shipped
headers, so those operations are modelled from the specification; each such
definition says so in its doc comment.
-/

set_option maxRecDepth 100000

namespace TinkerRTK

/-- Template string from base station homepage.h `home_html` (verbatim raw-literal contents). -/
def home_html : String := "\n<!DOCTYPE HTML><html>\n<head>\n  <title>TinkerRTK </title>\n  <meta name=\"viewport\" content=\"width=device-width, initial-scale=1\">\n  <link rel=\"stylesheet\" href=\"https://use.fontawesome.com/releases/v5.7.2/css/all.css\" integrity=\"sha384-fnmOCqbTlWIlj8LyTjo7mOUStjsKC4pOpQbqyi7RrhN7udi9RwhKkMHpvLbHG9Sr\" crossorigin=\"anonymous\">\n  <link rel=\"icon\" href=\"data:,\">\n  <style>\n    html \x7bfont-family: Arial; display: inline-block; text-align: center;\x7d\n    p \x7b font-size: 1.2rem;\x7d\n    body \x7b  margin: 0;\x7d\n    .topnav \x7b overflow: hidden; background-color: #BF17F9; color: white; font-size: 1rem; \x7d\n    .content \x7b padding: 20px; \x7d\n    .card \x7b background-color: white; box-shadow: 2px 2px 12px 1px rgba(140,140,140,.5); \x7d\n    .cards \x7b max-width: 800px; margin: 0 auto; display: grid; grid-gap: 2rem; grid-template-columns: repeat(auto-fit, minmax(200px, 1fr)); \x7d\n    .reading \x7b font-size: 1.4rem; \x7d\n  </style>\n</head>\n<body>\n  <div class=\"topnav\">\n    <h1>TinkerRTK Data</h1>\n  </div>\n  <div class=\"content\">\n    <div class=\"cards\">\n\n      <div class=\"card\">\n        <p><i class=\"fas fa-globe\" style=\"color:#0B67EC;\"></i> MODE</p><p>Base</p>\n      </div>\n      <div class=\"card\">\n        <p><i class=\"fas fa-satellite\" style=\"color:#1EC80D;\"></i> RTK</p><p><a href=\x27/rtk\x27> RTK</a></p>\n      </div>\n      <div class=\"card\">\n        <p><i class=\"fas fa-bolt\" style=\"color:#FFA533;\"></i> TINKERCHARGE</p><p><a href=\x27/tinkercharge\x27> TinkerCharge</a></p>\n      </div>\n      \n    </div>\n  </div>\n<script>\nif (!!window.EventSource) \x7b\n var source = new EventSource(\x27/events\x27);\n \n source.addEventListener(\x27open\x27, function(e) \x7b\n  console.log(\"Events Connected\");\n \x7d, false);\n source.addEventListener(\x27error\x27, function(e) \x7b\n  if (e.target.readyState != EventSource.OPEN) \x7b\n    console.log(\"Events Disconnected\");\n  \x7d\n \x7d, false);\n \n source.addEventListener(\x27message\x27, function(e) \x7b\n  console.log(\"message\", e.data);\n \x7d, false);\n \n </script>\n</body>\n</html>"

/-- Template string from base station rtk.h `rtk_html` (verbatim raw-literal contents). -/
def base_rtk_html : String := "\n<!DOCTYPE HTML><html>\n<head>\n  <title>TinkerRTK</title>\n  <meta name=\"viewport\" content=\"width=device-width, initial-scale=1\">\n  <link rel=\"stylesheet\" href=\"https://use.fontawesome.com/releases/v5.7.2/css/all.css\" integrity=\"sha384-fnmOCqbTlWIlj8LyTjo7mOUStjsKC4pOpQbqyi7RrhN7udi9RwhKkMHpvLbHG9Sr\" crossorigin=\"anonymous\">\n  <link rel=\"icon\" href=\"data:,\">\n  <style>\n    html \x7bfont-family: Arial; display: inline-block; text-align: center;\x7d\n    p \x7b font-size: 1.2rem;\x7d\n    body \x7b  margin: 0;\x7d\n    .topnav \x7b overflow: hidden; background-color: #BF17F9; color: white; font-size: 1rem; \x7d\n    .content \x7b padding: 20px; \x7d\n    .card \x7b background-color: white; box-shadow: 2px 2px 12px 1px rgba(140,140,140,.5); \x7d\n    .cards \x7b max-width: 800px; margin: 0 auto; display: grid; grid-gap: 2rem; grid-template-columns: repeat(auto-fit, minmax(200px, 1fr)); \x7d\n    .reading \x7b font-size: 1.4rem; \x7d\n  </style>\n</head>\n<body>\n  <div class=\"topnav\">\n    <h1>TinkerRTK RTK Data</h1>\n    <p><a href=\x27/\x27> Home</a></p>\n  </div>\n  \n  <div class=\"content\">\n    <div class=\"cards\">\n      <div class=\"card\">\n        <p><i class=\"fas fa-clock\" style=\"color:#0B67EC;\"></i> UP TIME</p><p><span class=\"reading\"><span id=\"up_time\">%UP_TIME%</span> minutes</span></p>\n      </div>\n      <div class=\"card\">\n        <p><i class=\"fas fa-clock\" style=\"color:#0B67EC;\"></i> UPLOADS</p><p><span class=\"reading\"><span id=\"num_uploads\">%NUM_UPLOADS%</span></p>\n      </div>\n    </div>\n  </div>\n<script>\nif (!!window.EventSource) \x7b\n var source = new EventSource(\x27/events\x27);\n \n source.addEventListener(\x27open\x27, function(e) \n \x7b\n  console.log(\"Events Connected\");\n \x7d, false);\n \n source.addEventListener(\x27error\x27, function(e) \n \x7b\n  if (e.target.readyState != EventSource.OPEN) \n  \x7b\n    console.log(\"Events Disconnected\");\n  \x7d\n \x7d, false);\n \n  source.addEventListener(\x27up_time\x27, function(e) \n  \x7b\n    console.log(\"up_time\", e.data);\n    document.getElementById(\"up_time\").innerHTML = e.data;\n  \x7d, false);\n\n  source.addEventListener(\x27num_uploads\x27, function(e) \n  \x7b\n    console.log(\"num_uploads\", e.data);\n    document.getElementById(\"num_uploads\").innerHTML = e.data;\n  \x7d, false);\n \n\x7d\n</script>\n</body>\n</html>"

/-- Template string from base station map.h `map_html` (verbatim raw-literal contents). -/
def map_html : String := "\n<!DOCTYPE HTML><html>\n<head>\n  <title>TinkerRTK GNSS Map </title>\n  <link rel = \"stylesheet\" href = \"http://cdn.leafletjs.com/leaflet-0.7.3/leaflet.css\"/>\n</head>\n<body>\n   <h1>TinkerRTK GNSS Map</h1>\n   <p><a href=\x27/\x27> Home</a></p>\n   <div id=\"map\" style = \"width: 900px; height: 580px\"></div>\n   <script src = \"http://cdn.leafletjs.com/leaflet-0.7.3/leaflet.js\"></script>\n<script>\n   var mapOptions = \n   \x7b\n     center: [39.28150740469, -74.5583502359],\n     zoom: 10\n  \x7d;\n  \n  var map = new L.map(\x27map\x27, mapOptions);\n\n  var layer = new L.TileLayer(\"http://\x7bs\x7d.tile.openstreetmap.org/\x7bz\x7d/\x7bx\x7d/\x7by\x7d.png\");\n\n  map.addLayer(layer);\n\n  var latlng = L.latLng(0.0, 0.0);\n  var marker = L.marker(latlng).addTo(map);\n\n  function getPosition()\n  \x7b\n    xmlhttp=new XMLHttpRequest();\n    xmlhttp.open(\x27GET\x27,\x27/loc\x27,false);\n    xmlhttp.send();\n\n    var data = xmlhttp.responseText;\n    console.log(data);\n    vals = data.split(\x27,\x27);\n    latlng = L.latLng(parseFloat(vals[0]), parseFloat(vals[1]));\n    map.panTo(latlng);\n    \n    updateMarker();\n  \x7d\n\n  function updateMarker() \n  \x7b\n     marker.setLatLng(latlng);\n  \x7d\n\n  setInterval(getPosition,2000);\n  \n</script>\n</body>\n</html>"

/-- Template string from rover rtk.h `rtk_html` (verbatim raw-literal contents). -/
def rover_rtk_html : String := "\n<!DOCTYPE HTML><html>\n<head>\n  <title>TinkerRTK</title>\n  <meta name=\"viewport\" content=\"width=device-width, initial-scale=1\">\n  <link rel=\"stylesheet\" href=\"https://cdnjs.cloudflare.com/ajax/libs/font-awesome/6.4.0/css/all.min.css\">\n  <link rel=\"icon\" href=\"data:,\">\n  <style>\n    html \x7bfont-family: Arial; display: inline-block; text-align: center;\x7d\n    p \x7b font-size: 1.2rem;\x7d\n    body \x7b  margin: 0;\x7d\n    .topnav \x7b overflow: hidden; background-color: #BF17F9; color: white; font-size: 1rem; \x7d\n    .content \x7b padding: 20px; \x7d\n    .card \x7b background-color: white; box-shadow: 2px 2px 12px 1px rgba(140,140,140,.5); \x7d\n    .cards \x7b max-width: 800px; margin: 0 auto; display: grid; grid-gap: 2rem; grid-template-columns: repeat(auto-fit, minmax(200px, 1fr)); \x7d\n    .reading \x7b font-size: 1.4rem; \x7d\n  </style>\n</head>\n<body>\n  <div class=\"topnav\">\n    <h1>TinkerRTK RTK Data</h1>\n    <p><a href=\x27/\x27> Home</a></p>\n  </div>\n  \n  <div class=\"content\">\n    <div class=\"cards\">\n\n      <div class=\"card\">\n        <p><i class=\"fa-solid fa-truck-fast\" style=\"color:#FFA533;\"></i> MODE</p><p><span class=\"reading\"><span id=\"rtk_mode\">%RTK_MODE%</span></p>\n      </div>\n      <div class=\"card\">\n        <p><i class=\"fas fa-clock\" style=\"color:#0B67EC;\"></i> DATE</p><p><span class=\"reading\"><span id=\"gnss_date\">%GNSS_DATE%</span></p>\n      </div>\n      <div class=\"card\">\n        <p><i class=\"fas fa-clock\" style=\"color:#e1e437;\"></i> UTC TIME</p><p><span class=\"reading\"><span id=\"gnss_time\">%GNSS_TIME%</span></p>\n      </div>\n      <div class=\"card\">\n        <p><i class=\"fas fa-clock\" style=\"color:#1EC80D;\"></i> UP TIME</p><p><span class=\"reading\"><span id=\"up_time\">%UP_TIME%</span> minutes</span></p>\n      </div>\n      <div class=\"card\">\n        <p><i class=\"fa-solid fa-satellite-dish\" style=\"color:#0B67EC;\"></i> FIX TYPE</p><p><span class=\"reading\"><span id=\"fix\">%FIX%</span></p>\n      </div>\n      <div class=\"card\">\n        <p><i class=\"fas fa-calendar\" style=\"color:#0B67EC;\"></i> RTK AGE</p><p><span class=\"reading\"><span id=\"rtk_age\">%RTK_AGE%</span> sec</span></p>\n      </div>\n      <div class=\"card\">\n        <p><i class=\"fas fa-check\" style=\"color:#0B67EC;\"></i> RTK Ratio</p><p><span class=\"reading\"><span id=\"rtk_ratio\">%RTK_RATIO%</span></p>\n      </div>\n      <div class=\"card\">\n        <p><i class=\"fas fa-satellite\" style=\"color:#0B67EC;\"></i> CYCLE SLIPS</p><p><span class=\"reading\"><span id=\"cs_gps\">%CS_GPS%</span> / <span id=\"cs_bds\">%CS_BDS%</span> / <span id=\"cs_gal\">%CS_GAL%</span></p>\n      </div>\n      <div class=\"card\">\n        <p><i class=\"fas fa-compass\" style=\"color:#FFA533;\"></i> EAST</p><p><span class=\"reading\"><span id=\"rtk_east\">%RTK_EAST%</span> m</span></p>\n      </div>\n      <div class=\"card\">\n        <p><i class=\"fas fa-compass\" style=\"color:#FFA533;\"></i> NORTH</p><p><span class=\"reading\"><span id=\"rtk_north\">%RTK_NORTH%</span> m</span></p>\n      </div>\n      <div class=\"card\">\n        <p><i class=\"fas fa-compass\" style=\"color:#FFA533;\"></i> UP</p><p><span class=\"reading\"><span id=\"rtk_up\">%RTK_UP%</span> m</span></p>\n      </div>\n    </div>\n  </div>\n<script>\nif (!!window.EventSource) \n\x7b\n var source = new EventSource(\x27/events\x27);\n \n source.addEventListener(\x27open\x27, function(e) \n \x7b\n  console.log(\"Events Connected\");\n \x7d, false);\n \n source.addEventListener(\x27error\x27, function(e) \n \x7b\n  if (e.target.readyState != EventSource.OPEN) \n  \x7b\n    console.log(\"Events Disconnected\");\n  \x7d\n \x7d, false);\n\n  source.addEventListener(\x27rtk_mode\x27, function(e) \n  \x7b\n    console.log(\"rtk_mode\", e.data);\n    document.getElementById(\"rtk_mode\").innerHTML = e.data;\n  \x7d, false);\n  \n  source.addEventListener(\x27gnss_date\x27, function(e) \n  \x7b\n    console.log(\"gnss_date\", e.data);\n    document.getElementById(\"gnss_date\").innerHTML = e.data;\n  \x7d, false);\n  \n  source.addEventListener(\x27gnss_time\x27, function(e) \n  \x7b\n    console.log(\"gnss_time\", e.data);\n    document.getElementById(\"gnss_time\").innerHTML = e.data;\n  \x7d, false);\n  \n  source.addEventListener(\x27up_time\x27, function(e) \n  \x7b\n    console.log(\"up_time\", e.data);\n    document.getElementById(\"up_time\").innerHTML = e.data;\n  \x7d, false);\n\n  source.addEventListener(\x27fix\x27, function(e) \n  \x7b\n    console.log(\"fix\", e.data);\n    document.getElementById(\"fix\").innerHTML = e.data;\n  \x7d, false);\n\n  source.addEventListener(\x27rtk_age\x27, function(e) \n  \x7b\n    console.log(\"rtk_age\", e.data);\n    document.getElementById(\"rtk_age\").innerHTML = e.data;\n  \x7d, false);\n  \n  source.addEventListener(\x27rtk_ratio\x27, function(e) \n  \x7b\n    console.log(\"rtk_ratio\", e.data);\n    document.getElementById(\"rtk_ratio\").innerHTML = e.data;\n  \x7d, false);\n   \n  source.addEventListener(\x27cs_gps\x27, function(e) \n  \x7b\n    console.log(\"cs_gps\", e.data);\n    document.getElementById(\"cs_gps\").innerHTML = e.data;\n  \x7d, false);\n\n  source.addEventListener(\x27cs_bds\x27, function(e) \n  \x7b\n    console.log(\"cs_bds\", e.data);\n    document.getElementById(\"cs_bds\").innerHTML = e.data;\n  \x7d, false);\n  \n  source.addEventListener(\x27cs_gal\x27, function(e) \n  \x7b\n    console.log(\"cs_gal\", e.data);\n    document.getElementById(\"cs_gal\").innerHTML = e.data;\n  \x7d, false);\n\n  source.addEventListener(\x27rtk_east\x27, function(e) \n  \x7b\n    console.log(\"rtk_east\", e.data);\n    document.getElementById(\"rtk_east\").innerHTML = e.data;\n  \x7d, false);\n  \n  source.addEventListener(\x27rtk_north\x27, function(e) \n  \x7b\n    console.log(\"rtk_north\", e.data);\n    document.getElementById(\"rtk_north\").innerHTML = e.data;\n  \x7d, false);\n  \n  source.addEventListener(\x27rtk_up\x27, function(e) \n  \x7b\n    console.log(\"rtk_up\", e.data);\n    document.getElementById(\"rtk_up\").innerHTML = e.data;\n  \x7d, false);\n\x7d\n</script>\n</body>\n</html>"

/-- Template string from rover gnss.h `gnss_html` (verbatim raw-literal contents). -/
def gnss_html : String := "\n<!DOCTYPE HTML><html>\n<head>\n  <title>TinkerRTK</title>\n  <meta name=\"viewport\" content=\"width=device-width, initial-scale=1\">\n  <link rel=\"stylesheet\" href=\"https://cdnjs.cloudflare.com/ajax/libs/font-awesome/6.4.0/css/all.min.css\">\n  <link rel=\"icon\" href=\"data:,\">\n  <style>\n    html \x7bfont-family: Arial; display: inline-block; text-align: center;\x7d\n    p \x7b font-size: 1.2rem;\x7d\n    body \x7b  margin: 0;\x7d\n    .topnav \x7b overflow: hidden; background-color: #BF17F9; color: white; font-size: 1rem; \x7d\n    .content \x7b padding: 20px; \x7d\n    .card \x7b background-color: white; box-shadow: 2px 2px 12px 1px rgba(140,140,140,.5); \x7d\n    .cards \x7b max-width: 800px; margin: 0 auto; display: grid; grid-gap: 2rem; grid-template-columns: repeat(auto-fit, minmax(200px, 1fr)); \x7d\n    .reading \x7b font-size: 1.4rem; \x7d\n  </style>\n</head>\n<body>\n  <div class=\"topnav\">\n    <h1>TinkerRTK GNSS Data</h1>\n    <p><a href=\x27/\x27> Home</a></p>\n  </div>\n  <div class=\"content\">\n    <div class=\"cards\">\n      <div class=\"card\">\n        <p><i class=\"fas fa-globe\" style=\"color:#FFA533;\"></i> LATTITUDE</p><p><span class=\"reading\"><span id=\"lat\">%LATTITUDE%</span> &deg;</span></p>\n      </div>\n      <div class=\"card\">\n        <p><i class=\"fas fa-globe\" style=\"color:#1EC80D;\"></i> LONGITUDE</p><p><span class=\"reading\"><span id=\"lng\">%LONGITUDE%</span> &deg;</span></p>\n      </div>\n    </div>\n  </div>\n<script>\nif (!!window.EventSource) \x7b\n var source = new EventSource(\x27/events\x27);\n \n source.addEventListener(\x27open\x27, function(e) \x7b\n  console.log(\"Events Connected\");\n \x7d, false);\n source.addEventListener(\x27error\x27, function(e) \x7b\n  if (e.target.readyState != EventSource.OPEN) \x7b\n    console.log(\"Events Disconnected\");\n  \x7d\n \x7d, false);\n \n source.addEventListener(\x27message\x27, function(e) \x7b\n  console.log(\"message\", e.data);\n \x7d, false);\n \n source.addEventListener(\x27lattitude\x27, function(e) \x7b\n  console.log(\"lattitude\", e.data);\n  document.getElementById(\"lat\").innerHTML = e.data;\n \x7d, false);\n \n  source.addEventListener(\x27longitude\x27, function(e) \x7b\n  console.log(\"longitude\", e.data);\n  document.getElementById(\"lng\").innerHTML = e.data;\n \x7d, false);\n \n\x7d\n</script>\n</body>\n</html>"

/-- Template string from rover satellite_data.h `sat_html` (verbatim raw-literal contents). -/
def sat_html : String := "\n<!DOCTYPE html>\n<html>\n<head>\n  <title>Sensor Data Table</title>\n  <style>\n    table \x7b\n      border-collapse: collapse;\n      width: 100%;\n    \x7d\n    th, td \x7b\n      border: 1px solid black;\n      padding: 8px;\n      text-align: left;\n    \x7d\n    th \x7b\n      background-color: #f2f2f2;\n    \x7d\n  </style>\n</head>\n<body>\n  <h1>Sattelite Data Table</h1>\n  <table id=\"sat_table\">\n    <tr>\n      <th>Constellation</th>\n      <th>PRN</th>\n      <th>Az</th>\n      <th>El</th>\n      <th>SNR</th>\n    </tr>\n  </table>\n\n  <script>\n\n    // Function to generate the table rows\n    function generateTable() \n    \x7b\n\n        var newRow = sat_table.insertRow(sat_table.length);\n        var cell1 = newRow.insertCell(0); cell1.innerHTML = sat_table_string[0];\n        var cell2 = newRow.insertCell(1); cell2.innerHTML = sat_table_string[1];\n        var cell3 = newRow.insertCell(2); cell3.innerHTML = sat_table_string[2];\n        var cell4 = newRow.insertCell(3); cell4.innerHTML = sat_table_string[3];\n        var cell5 = newRow.insertCell(4); cell5.innerHTML = sat_table_string[4];\n        \n\n//        for(auto it = gps_sat_map.begin(); it != gps_sat_map.end(); it++)\n//        \x7b\n//           // Create a new row\n//           var new_row = sat_table.insertRow(sat_table.length);\n//           Serial.print(\"i\");\n//        \n//           // Add values for cells in row\n//           var col_1 = new_row.insertCell(0); col_1.innerHTML = it->second.constellation;\n//           var col_2 = new_row.insertCell(1); col_2.innerHTML = it->first;\n//           var col_3 = new_row.insertCell(2); col_3.innerHTML = it->second.azimuth;\n//           var col_4 = new_row.insertCell(3); col_4.innerHTML = it->second.elevation;\n//           var col_5 = new_row.insertCell(4); col_5.innerHTML = it->second.snr;\n//        \x7d\n//\n//        for(auto it = gal_sat_map.begin(); it != gal_sat_map.end(); it++)\n//        \x7b\n//           // Create a new row\n//           var new_row = sat_table.insertRow(sat_table.length);\n//        \n//           // Add values for cells in row\n//           var col_1 = new_row.insertCell(0); col_1.innerHTML = it->second.constellation;\n//           var col_2 = new_row.insertCell(1); col_2.innerHTML = it->first;\n//           var col_3 = new_row.insertCell(2); col_3.innerHTML = it->second.azimuth;\n//           var col_4 = new_row.insertCell(3); col_4.innerHTML = it->second.elevation;\n//           var col_5 = new_row.insertCell(4); col_5.innerHTML = it->second.snr;\n//        \x7d\n//        \n//        for(auto it = bei_sat_map.begin(); it != bei_sat_map.end(); it++)\n//        \x7b\n//           // Create a new row\n//           var new_row = sat_table.insertRow(sat_table.length);\n//        \n//           // Add values for cells in row\n//           var col_1 = new_row.insertCell(0); col_1.innerHTML = it->second.constellation;\n//           var col_2 = new_row.insertCell(1); col_2.innerHTML = it->first;\n//           var col_3 = new_row.insertCell(2); col_3.innerHTML = it->second.azimuth;\n//           var col_4 = new_row.insertCell(3); col_4.innerHTML = it->second.elevation;\n//           var col_5 = new_row.insertCell(4); col_5.innerHTML = it->second.snr;\n//        \x7d\n    \x7d\n\n    // Call the function to generate the table on page load\n    window.onload = generateTable;\n  </script>\n</body>\n</html>\n\n    "

/-- Template string from rover tinkercharge.h `tc_html` (verbatim raw-literal contents). -/
def tc_html : String := "\n<!DOCTYPE HTML><html>\n<head>\n  <title>TinkerRTK</title>\n  <meta name=\"viewport\" content=\"width=device-width, initial-scale=1\">\n  <link rel=\"stylesheet\" href=\"https://cdnjs.cloudflare.com/ajax/libs/font-awesome/6.4.0/css/all.min.css\">\n  <link rel=\"icon\" href=\"data:,\">\n  <style>\n    html \x7bfont-family: Arial; display: inline-block; text-align: center;\x7d\n    p \x7b font-size: 1.2rem;\x7d\n    body \x7b  margin: 0;\x7d\n    .topnav \x7b overflow: hidden; background-color: #BF17F9; color: white; font-size: 1rem; \x7d\n    .content \x7b padding: 20px; \x7d\n    .card \x7b background-color: white; box-shadow: 2px 2px 12px 1px rgba(140,140,140,.5); \x7d\n    .cards \x7b max-width: 800px; margin: 0 auto; display: grid; grid-gap: 2rem; grid-template-columns: repeat(auto-fit, minmax(200px, 1fr)); \x7d\n    .reading \x7b font-size: 1.4rem; \x7d\n  </style>\n</head>\n<body>\n  <div class=\"topnav\">\n    <h1>TinkerRTK TinkerCharge Data</h1>\n    <p><a href=\x27/\x27> Home</a></p>\n    \n    \n  </div>\n  <div class=\"content\">\n    <div class=\"cards\">\n      <div class=\"card\">\n        <p><i class=\"fas fa-bolt\" style=\"color:#FFA533;\"></i> VOLTAGE</p><p><span class=\"reading\"><span id=\"volt\">%VOLTAGE%</span> V</span></p>\n      </div>\n      <div class=\"card\">\n        <p><i class=\"fas fa-bolt\" style=\"color:#e1e437;\"></i> AVG VOLTAGE</p><p><span class=\"reading\"><span id=\"a_volt\">%AVG_VOLTAGE%</span> V</span></p>\n      </div>\n      <div class=\"card\">\n        <p><i class=\"fas fa-arrow-right\" style=\"color:#FFA533;\"></i> CURRENT</p><p><span class=\"reading\"><span id=\"curr\">%CURRENT%</span> mA</span></p>\n      </div>\n      <div class=\"card\">\n        <p><i class=\"fas fa-arrow-right\" style=\"color:#e1e437;\"></i> AVG CURRENT</p><p><span class=\"reading\"><span id=\"a_curr\">%AVG_CURRENT%</span> mA</span></p>\n      </div>\n      <div class=\"card\">\n        <p><i class=\"fas fa-battery-full\" style=\"color:#0B67EC;\"></i> BATTERY CHARGE</p><p><span class=\"reading\"><span id=\"b_soc\">%BATT_CHARGE%</span> &percnt;</span></p>\n      </div>\n      <div class=\"card\">\n        <p><i class=\"fas fa-battery-full\" style=\"color:#1EC80D;\"></i> BATTERY CAPACITY</p><p><span class=\"reading\"><span id=\"b_cap\">%BATT_CAPACITY%</span> mAH</span></p>\n      </div>\n      <div class=\"card\">\n        <p><i class=\"fas fa-thermometer-half\" style=\"color:#0B67EC;\"></i> TC TEMPERATURE</p><p><span class=\"reading\"><span id=\"temp\">%TEMPERATURE%</span> &deg;C</span></p>\n      </div>\n      <div class=\"card\">\n        <p><i class=\"fas fa-clock\" style=\"color:#0B67EC;\"></i> UP TIME</p><p><span class=\"reading\"><span id=\"up_time\">%UP_TIME%</span> minutes</span></p>\n      </div>\n    </div>\n  </div>\n<script>\nif (!!window.EventSource) \x7b\n var source = new EventSource(\x27/events\x27);\n \n source.addEventListener(\x27open\x27, function(e) \x7b\n  console.log(\"Events Connected\");\n \x7d, false);\n source.addEventListener(\x27error\x27, function(e) \x7b\n  if (e.target.readyState != EventSource.OPEN) \x7b\n    console.log(\"Events Disconnected\");\n  \x7d\n \x7d, false);\n \n source.addEventListener(\x27message\x27, function(e) \x7b\n  console.log(\"message\", e.data);\n \x7d, false);\n \n source.addEventListener(\x27voltage\x27, function(e) \x7b\n  console.log(\"voltage\", e.data);\n  document.getElementById(\"volt\").innerHTML = e.data;\n \x7d, false);\n \n  source.addEventListener(\x27avg_voltage\x27, function(e) \x7b\n  console.log(\"avg_voltage\", e.data);\n  document.getElementById(\"a_volt\").innerHTML = e.data;\n \x7d, false);\n \n source.addEventListener(\x27current\x27, function(e) \x7b\n  console.log(\"current\", e.data);\n  document.getElementById(\"curr\").innerHTML = e.data;\n \x7d, false);\n\n  source.addEventListener(\x27avg_current\x27, function(e) \x7b\n  console.log(\"avg_current\", e.data);\n  document.getElementById(\"a_curr\").innerHTML = e.data;\n \x7d, false);\n\n   source.addEventListener(\x27battery_capacity\x27, function(e) \x7b\n  console.log(\"battery_capacity\", e.data);\n  document.getElementById(\"b_cap\").innerHTML = e.data;\n \x7d, false);\n\n   source.addEventListener(\x27battery_soc\x27, function(e) \x7b\n  console.log(\"battery_soc\", e.data);\n  document.getElementById(\"b_soc\").innerHTML = e.data;\n \x7d, false);\n\n    source.addEventListener(\x27tc_temp\x27, function(e) \x7b\n  console.log(\"tc_temp\", e.data);\n  document.getElementById(\"temp\").innerHTML = e.data;\n \x7d, false);\n\n     source.addEventListener(\x27up_time\x27, function(e) \x7b\n  console.log(\"up_time\", e.data);\n  document.getElementById(\"up_time\").innerHTML = e.data;\n \x7d, false);\n \n\x7d\n</script>\n</body>\n</html>"


/-- Placeholder scanner: walks the character list, alternating between
"outside a token" (`none`) and "inside a token" (`some acc`, the characters
collected so far, reversed).  Each maximal `%NAME%` pair yields `NAME`;
an unclosed trailing `%` yields nothing.  This models the `%NAME%` token
syntax that the shipped templates use. -/
def scanPH : List Char → Option (List Char) → List String
  | [], _ => []
  | c :: rest, none =>
    if c = '%' then scanPH rest (some []) else scanPH rest none
  | c :: rest, some acc =>
    if c = '%' then String.mk acc.reverse :: scanPH rest none
    else scanPH rest (some (c :: acc))

/-- All placeholder token names occurring in a template, in textual order. -/
def placeholders (t : String) : List String := scanPH t.toList none

/-- Role field sets. Modelled from the spec: the spec fixes the per-role field
name sets (base station, rover, power module); the Telemetry Store code that
declares them is not under `src/`.  The names coincide with the streaming
event names registered by `addEventListener` in the shipped templates. -/
def baseFields : List String := ["up_time", "num_uploads"]

/-- Rover role field set; see `baseFields` for provenance. -/
def roverFields : List String := ["lattitude", "longitude", "rtk_mode", "gnss_date",
  "gnss_time", "up_time", "fix", "rtk_age", "rtk_ratio", "cs_gps", "cs_bds",
  "cs_gal", "rtk_east", "rtk_north", "rtk_up"]

/-- Power-module (TinkerCharge) role field set; see `baseFields` for provenance. -/
def powerFields : List String := ["voltage", "avg_voltage", "current", "avg_current",
  "battery_soc", "battery_capacity", "tc_temp", "up_time"]

/-- Upper-case form of a field identifier (letters upper-cased, `_` unchanged). -/
def upperName (s : String) : String := String.mk (s.toList.map Char.toUpper)

/-- All seven shipped page templates. -/
def allTemplates : List String :=
  [home_html, base_rtk_html, map_html, rover_rtk_html, gnss_html, sat_html, tc_html]

/-- Upper-cased identifiers of every field of every role. -/
def allFieldUppers : List String := (baseFields ++ roverFields ++ powerFields).map upperName

/-- Telemetry Store read. Modelled from the spec: `get(field)` returns the latest
value or a role-defined default (0 here) if the field is absent.  The store is
an association list from field name to value; values are integers, coordinates
being held as fixed-point micro-degrees (floating point is out of scope of the
embedding, and the formatting below is fixed-decimal anyway). -/
def getF : List (String × Int) → String → Int
  | [], _ => 0
  | p :: rest, f => if p.1 = f then p.2 else getF rest f

/-- Telemetry Store write. Modelled from the spec: `set(field, value)` overwrites
the value for a known field name and leaves the store untouched for an unknown
one (the fixed field set is never extended). -/
def setF (st : List (String × Int)) (f : String) (v : Int) : List (String × Int) :=
  st.map (fun p => if p.1 = f then (f, v) else p)

/-- Field-name set of a store (association-list keys, in order). -/
def keys (st : List (String × Int)) : List String := st.map (·.1)

/-- Left-pads a string with `'0'` up to the given length. -/
def padZeros (len : Nat) (s : String) : String :=
  String.mk (List.replicate (len - s.length) '0') ++ s

/-- Fixed six-decimal rendering of a fixed-point micro-degree value. -/
def fmtFixed6 (v : Int) : String :=
  (if v < 0 then "-" else "") ++ toString (v.natAbs / 1000000) ++ "." ++
    padZeros 6 (toString (v.natAbs % 1000000))

/-- Per-field stringification. Modelled from the spec: numeric formatting is a
fixed, deterministic function of the stored value, with fixed decimal places
for the coordinate fields; the remaining fields print as plain integers. -/
def fmtField (f : String) (v : Int) : String :=
  if f = "lattitude" then fmtFixed6 v
  else if f = "longitude" then fmtFixed6 v
  else toString v

/-- Event Broadcaster payload serialization. Modelled from the spec: the payload
of a named streaming event is the stringified field value, with the same
formatting rules as the Template Renderer (`fmtField`). -/
def eventPayload (f : String) (v : Int) : String := fmtField f v

/-- One named server-push event as observed by a streaming client. -/
structure Event where
  name : String
  payload : String
deriving DecidableEq

/-- State of the telemetry publication subsystem: the store plus, for every
currently connected streaming client, the list of events it has received
(oldest first). Modelled from the spec (§4.2). -/
structure Sys where
  store : List (String × Int)
  clients : List (List Event)
deriving DecidableEq

/-- Store write plus broadcast. Modelled from the spec: `set` overwrites the
field's value, and on a known-field change the Broadcaster pushes one event
named after the field to every currently connected client; an unknown-field
write is discarded (logged only) and publishes nothing. -/
def sysSet (s : Sys) (f : String) (v : Int) : Sys :=
  { store := setF s.store f v,
    clients :=
      if f ∈ keys s.store then
        s.clients.map (fun evs => evs ++ [⟨f, eventPayload f v⟩])
      else s.clients }

/-- Subscription. Modelled from the spec: registers a new streaming client that
has received no historical backlog. -/
def subscribe (s : Sys) : Sys := { s with clients := s.clients ++ [[]] }

/-- One correction-less tick. Modelled from the spec scenario: each tick
increments the `rtk_age` field through the ordinary `set` path. -/
def tickRtkAge (s : Sys) : Sys := sysSet s "rtk_age" (getF s.store "rtk_age" + 1)

/-- A sequence of `set` calls on one field, applied in order. -/
def setSeq (f : String) (vs : List Int) (s : Sys) : Sys :=
  vs.foldl (fun acc v => sysSet acc f v) s

/-- Template Renderer core. Modelled from the spec: one left-to-right pass; the
state mirrors `scanPH`; literal characters are copied, each `%NAME%` token is
replaced by the looked-up value or by the empty string when the name is
unknown; an unclosed trailing `%` emits nothing. -/
def renderAux (lookup : String → Option String) : List Char → Option (List Char) → List Char
  | [], _ => []
  | c :: rest, none =>
    if c = '%' then renderAux lookup rest (some [])
    else c :: renderAux lookup rest none
  | c :: rest, some acc =>
    if c = '%' then
      ((lookup (String.mk acc.reverse)).getD "").toList ++ renderAux lookup rest none
    else renderAux lookup rest (some (c :: acc))

/-- Render a template against a lookup function. -/
def render (lookup : String → Option String) (t : String) : String :=
  String.mk (renderAux lookup t.toList none)

/-- Placeholder lookup against a store snapshot. Modelled from the spec: a token
`NAME` resolves to the field whose upper-cased identifier is `NAME`, stringified
by the fixed per-field formatting; tokens naming no field resolve to nothing
(and hence render as the empty string). -/
def fieldOfToken : List String → String → Option String
  | [], _ => none
  | f :: rest, nm => if upperName f = nm then some f else fieldOfToken rest nm

/-- Placeholder lookup against a store snapshot (see `fieldOfToken`). -/
def lookupStore (st : List (String × Int)) (nm : String) : Option String :=
  match fieldOfToken (keys st) nm with
  | some f => some (fmtField f (getF st f))
  | none => none

/-- Render a template against a store snapshot. -/
def renderStore (st : List (String × Int)) (t : String) : String :=
  render (lookupStore st) t

/-- Response body of `GET /loc`. Modelled from the spec: the plain-text payload
`"<lat>,<lon>"`, a direct store read with no template processing. -/
def locResponse (st : List (String × Int)) : String :=
  fmtField "lattitude" (getF st "lattitude") ++ "," ++ fmtField "longitude" (getF st "longitude")

/-- Rover store at startup: every rover field present with default value 0. -/
def roverStore0 : List (String × Int) := roverFields.map (fun f => (f, 0))

/-- The satellite-table row built by `generateTable` in
`satellite_data.h`: the five cells are taken from indices 0..4 of
`sat_table_string` (constellation, PRN, azimuth, elevation, SNR). -/
def mkRow (satTableString : List String) : List String :=
  [satTableString.getD 0 "", satTableString.getD 1 "", satTableString.getD 2 "",
   satTableString.getD 3 "", satTableString.getD 4 ""]

/-- Embedding of `generateTable` from `satellite_data.h`: the live code inserts
one new row at index `sat_table.length` (an unconditional append) and fills its
five cells from `sat_table_string`; the per-constellation merge loops below it
are commented out in the source. -/
def generateTable (satTableString : List String) (satTable : List (List String)) :
    List (List String) :=
  satTable ++ [mkRow satTableString]

/-- The (constellation, PRN) key of a table row (cells 0 and 1). -/
def rowKey (row : List String) : String × String := (row.getD 0 "", row.getD 1 "")

/-- Number of rows of a table carrying a given (constellation, PRN) key. -/
def countKey (t : List (List String)) (k : String × String) : Nat :=
  (t.filter (fun r => rowKey r = k)).length

/-- Splits a character list at the first occurrence of `stop`: the characters
before it and the characters after it (the whole list and `[]` if absent). -/
def readUntil (stop : Char) : List Char → List Char × List Char
  | [] => ([], [])
  | c :: rest =>
    if c = stop then ([], rest)
    else
      let r := readUntil stop rest
      (c :: r.1, r.2)

/-- Splits a character list at every quote character (both `"` and `'`), the
delimiters themselves dropped.  In the templates every `span` id, every
`addEventListener` event name and every `getElementById` element id is a
complete quote-delimited segment, and the segment right before it ends with
the corresponding opening marker. -/
def splitQuotes : List Char → List Char → List (List Char)
  | [], acc => [acc.reverse]
  | c :: rest, acc =>
    if c = '"' then acc.reverse :: splitQuotes rest []
    else if c = Char.ofNat 39 then acc.reverse :: splitQuotes rest []
    else splitQuotes rest (c :: acc)

/-- Tests whether `pat` is a suffix of `l`. -/
def endsWithL (pat : List Char) (l : List Char) : Bool :=
  pat.reverse.isPrefixOf l.reverse

/-- Literal marker that opens an id-carrying `span` element in the templates
(up to the quote the segment split consumed). -/
def spanIdMark : List Char := "<span id=".toList

/-- Scanner collecting every `(id, initial content)` pair of the
`<span id="...">...</...` elements of a template, in textual order: a segment
ending in `<span id=` is followed by the id segment and then by the segment
`>content<...`, whose text between `>` and `<` is the span's initial content. -/
def spanSegs : List (List Char) → List (String × String)
  | s1 :: s2 :: s3 :: rest =>
    if endsWithL spanIdMark s1 then
      (String.mk s2, String.mk (readUntil '<' (readUntil '>' s3).2).1)
        :: spanSegs (s2 :: s3 :: rest)
    else spanSegs (s2 :: s3 :: rest)
  | _ => []

/-- All `(id, initial content)` span pairs of a template. -/
def spanPairs (t : String) : List (String × String) :=
  spanSegs (splitQuotes t.toList [])

/-- Literal marker that opens an `addEventListener(` call in the templates. -/
def evMark : List Char := "addEventListener(".toList

/-- Literal marker that opens a `getElementById(` call in the templates. -/
def targetMark : List Char := "getElementById(".toList

/-- A token of a template's script: either the registration of a listener for a
named event, or a DOM element targeted by `getElementById`. -/
inductive ScriptTok where
  | listen (eventName : String)
  | target (elemId : String)
deriving DecidableEq

/-- Scanner producing the script tokens of a template in textual order: a
segment ending in `addEventListener(` is followed by the quoted event name,
and a segment ending in `getElementById(` by the quoted element id. -/
def scriptToksSegs : List (List Char) → List ScriptTok
  | s1 :: s2 :: rest =>
    if endsWithL evMark s1 then ScriptTok.listen (String.mk s2) :: scriptToksSegs (s2 :: rest)
    else if endsWithL targetMark s1 then
      ScriptTok.target (String.mk s2) :: scriptToksSegs (s2 :: rest)
    else scriptToksSegs (s2 :: rest)
  | _ => []

/-- All script tokens of a template. -/
def scriptToks (t : String) : List ScriptTok :=
  scriptToksSegs (splitQuotes t.toList [])

/-- Associates every `getElementById` target with the event listener whose body
it occurs in (the most recently opened listener). -/
def pairTargets : List ScriptTok → Option String → List (String × String)
  | [], _ => []
  | ScriptTok.listen ev :: rest, _ => pairTargets rest (some ev)
  | ScriptTok.target _ :: rest, none => pairTargets rest none
  | ScriptTok.target tid :: rest, some ev => (ev, tid) :: pairTargets rest (some ev)

/-- EventSource lifecycle listeners, which are not named after telemetry fields. -/
def lifecycleEvents : List String := ["open", "error", "message"]

/-- Placeholder name displayed for a field. Modelled from the spec: the renderer
resolves a field's placeholder by its upper-cased identifier, except that in the
power page the fields `battery_soc`, `battery_capacity` and `tc_temp` are
displayed through the legacy tokens `BATT_CHARGE`, `BATT_CAPACITY` and
`TEMPERATURE` (the processor code realising the map is not under `src/`). -/
def phFor (f : String) : String :=
  if f = "battery_soc" then "BATT_CHARGE"
  else if f = "battery_capacity" then "BATT_CAPACITY"
  else if f = "tc_temp" then "TEMPERATURE"
  else upperName f

/-- Checks, for one template, that every field-named event listener writes into
exactly one DOM element, that exactly one span in the same template carries that
element id, and that this span's initial content is the placeholder token of
the same field. -/
def listenerSpanOk (t : String) : Bool :=
  let toks := scriptToks t
  let pairs := pairTargets toks none
  let evs := (toks.filterMap fun tok =>
    match tok with
    | ScriptTok.listen e => some e
    | ScriptTok.target _ => none).filter (fun e => !(lifecycleEvents.contains e))
  evs.all fun ev =>
    match pairs.filter (fun p => p.1 = ev) with
    | [(_, tid)] =>
      (spanPairs t).filter (fun s => s.1 = tid) = [(tid, "%" ++ phFor ev ++ "%")]
    | _ => false

/-- Legacy placeholder tokens of the power page (see `phFor`). -/
def legacyPlaceholderNames : List String := ["BATT_CHARGE", "BATT_CAPACITY", "TEMPERATURE"]


/-! ### Telemetry Store lemmas -/

theorem keys_setF (st : List (String × Int)) (f : String) (v : Int) :
    keys (setF st f v) = keys st := by
  induction st with
  | nil => rfl
  | cons p rest ih =>
    simp only [setF, keys, List.map_cons] at ih ⊢
    by_cases h : p.1 = f
    · simp [h, ih]
    · simp [h, ih]

theorem setF_not_mem (st : List (String × Int)) (f : String) (v : Int)
    (h : f ∉ keys st) : setF st f v = st := by
  induction st with
  | nil => rfl
  | cons p rest ih =>
    have h1 : ¬ p.1 = f := by
      intro e
      exact h (by simp [keys, e])
    have h2 : f ∉ keys rest := by
      intro hm
      exact h (by simp [keys] at hm ⊢; exact Or.inr hm)
    simp only [setF, List.map_cons, if_neg h1]
    simp only [setF] at ih
    rw [ih h2]

theorem getF_setF_ne (st : List (String × Int)) (f g : String) (v : Int)
    (h : g ≠ f) : getF (setF st f v) g = getF st g := by
  induction st with
  | nil => rfl
  | cons p rest ih =>
    by_cases hpf : p.1 = f
    · have hfg : ¬ f = g := fun e => h e.symm
      have hpg : ¬ p.1 = g := by rw [hpf]; exact hfg
      simp only [setF, List.map_cons, if_pos hpf, getF, if_neg hfg, if_neg hpg]
      simpa [setF] using ih
    · by_cases hpg : p.1 = g
      · simp only [setF, List.map_cons, if_neg hpf, getF, if_pos hpg]
      · simp only [setF, List.map_cons, if_neg hpf, getF, if_neg hpg]
        simpa [setF] using ih

/-! ### Renderer lemmas -/

theorem scanPH_append_no_pct (v rest : List Char) (h : '%' ∉ v) :
    scanPH (v ++ rest) none = scanPH rest none := by
  induction v with
  | nil => rfl
  | cons c vs ih =>
    have hc : ¬ c = '%' := by
      intro e
      exact h (by rw [e]; exact List.mem_cons_self _ _)
    have h2 : '%' ∉ vs := fun hm => h (List.mem_cons_of_mem c hm)
    simp only [List.cons_append, scanPH, if_neg hc]
    exact ih h2

/-- Lookup functions whose known values never contain the `%` delimiter (true
of the numeric formatting used by the telemetry fields). -/
def NoPctLookup (lookup : String → Option String) : Prop :=
  ∀ n v, lookup n = some v → '%' ∉ v.toList

theorem scanPH_renderAux (lookup : String → Option String) (h : NoPctLookup lookup)
    (s : List Char) :
    scanPH (renderAux lookup s none) none = [] ∧
      ∀ acc, scanPH (renderAux lookup s (some acc)) none = [] := by
  induction s with
  | nil => exact ⟨rfl, fun _ => rfl⟩
  | cons c rest ih =>
    refine ⟨?_, ?_⟩
    · by_cases hc : c = '%'
      · simpa [renderAux, hc] using ih.2 []
      · simpa [renderAux, scanPH, hc] using ih.1
    · intro acc
      by_cases hc : c = '%'
      · cases hv : lookup (String.mk acc.reverse) with
        | none => simpa [renderAux, hc, hv] using ih.1
        | some v =>
          have hnp := scanPH_append_no_pct v.toList (renderAux lookup rest none) (h _ _ hv)
          simp only [renderAux, if_pos hc, hv, Option.getD_some]
          rw [hnp]
          exact ih.1
      · simpa [renderAux, hc] using ih.2 (c :: acc)

theorem renderAux_congr (l1 l2 : String → Option String) (h : ∀ n, l1 n = l2 n)
    (s : List Char) : ∀ ost, renderAux l1 s ost = renderAux l2 s ost := by
  induction s with
  | nil => intro ost; cases ost <;> rfl
  | cons c rest ih =>
    intro ost
    cases ost with
    | none =>
      by_cases hc : c = '%' <;> simp [renderAux, hc, ih]
    | some acc =>
      by_cases hc : c = '%' <;> simp [renderAux, hc, ih, h]

theorem renderAux_capture (lookup : String → Option String) (nm : List Char) :
    ∀ acc rest, '%' ∉ nm →
      renderAux lookup (nm ++ '%' :: rest) (some acc)
        = ((lookup (String.mk (acc.reverse ++ nm))).getD "").toList
            ++ renderAux lookup rest none := by
  induction nm with
  | nil =>
    intro acc rest _
    simp [renderAux]
  | cons c nms ih =>
    intro acc rest h
    have hc : ¬ c = '%' := by
      intro e
      exact h (by rw [e]; exact List.mem_cons_self _ _)
    have h2 : '%' ∉ nms := fun hm => h (List.mem_cons_of_mem c hm)
    show renderAux lookup (c :: (nms ++ '%' :: rest)) (some acc) = _
    simp only [renderAux, if_neg hc]
    show renderAux lookup (nms ++ '%' :: rest) (some (c :: acc)) = _
    rw [ih (c :: acc) rest h2]
    simp [List.reverse_cons, List.append_assoc]

theorem string_mk_toList (s : String) : String.mk s.toList = s := rfl

theorem render_single_ph (lookup : String → Option String) (nm : String)
    (h : '%' ∉ nm.toList) :
    render lookup ("%" ++ nm ++ "%") = (lookup nm).getD "" := by
  have h1 : ("%" ++ nm ++ "%").toList = '%' :: (nm.toList ++ '%' :: []) := by
    show ("%" ++ nm ++ "%").data = _
    simp only [String.data_append]
    rfl
  unfold render
  rw [h1]
  show String.mk (renderAux lookup (nm.toList ++ '%' :: []) (some [])) = _
  rw [renderAux_capture lookup nm.toList [] [] h]
  show String.mk (((lookup (String.mk nm.toList)).getD "").toList ++ []) = (lookup nm).getD ""
  rw [List.append_nil, string_mk_toList, string_mk_toList]

/-! ### Placeholder-lookup lemmas -/

theorem fieldOfToken_self (f : String) (l : List String) (hm : f ∈ l)
    (hinj : ∀ g ∈ l, upperName g = upperName f → g = f) :
    fieldOfToken l (upperName f) = some f := by
  induction l with
  | nil => cases hm
  | cons a rest ih =>
    by_cases ha : upperName a = upperName f
    · have : a = f := hinj a (List.mem_cons_self a rest) ha
      simp [fieldOfToken, ha, this]
    · have hfr : f ∈ rest := by
        cases List.mem_cons.mp hm with
        | inl e => exact absurd (by rw [e]) ha
        | inr hr => exact hr
      simp only [fieldOfToken, if_neg ha]
      exact ih hfr (fun g hg e => hinj g (List.mem_cons_of_mem a hg) e)

theorem lookupStore_eq (st : List (String × Int)) (f : String) (hm : f ∈ keys st)
    (hinj : ∀ g ∈ keys st, upperName g = upperName f → g = f) :
    lookupStore st (upperName f) = some (fmtField f (getF st f)) := by
  unfold lookupStore
  rw [fieldOfToken_self f (keys st) hm hinj]

/-! ### Broadcaster lemmas -/

theorem setSeq_cons (F : String) (v : Int) (vs : List Int) (s : Sys) :
    setSeq F (v :: vs) s = setSeq F vs (sysSet s F v) := rfl

theorem sysSet_store_keys (s : Sys) (f : String) (v : Int) :
    keys (sysSet s f v).store = keys s.store := keys_setF s.store f v

theorem setSeq_clients (F : String) (vs : List Int) :
    ∀ s : Sys, F ∈ keys s.store →
      (setSeq F vs s).clients
        = s.clients.map (fun evs => evs ++ vs.map fun v => Event.mk F (eventPayload F v)) := by
  induction vs with
  | nil =>
    intro s _
    simp [setSeq]
  | cons v vs ih =>
    intro s h
    rw [setSeq_cons]
    rw [ih (sysSet s F v) (by rw [sysSet_store_keys]; exact h)]
    show (if F ∈ keys s.store then
        s.clients.map (fun evs => evs ++ [Event.mk F (eventPayload F v)])
      else s.clients).map _ = _
    rw [if_pos h, List.map_map]
    refine congrArg (fun g => List.map g s.clients) (funext fun evs => ?_)
    show (evs ++ [Event.mk F (eventPayload F v)]) ++ _ = _
    rw [List.append_assoc]
    rfl

/-! ### Claims -/

/-- C1: for every field `F` and every sequence of `set` calls on `F` with no
subscriber churn in between, every currently connected streaming client
receives exactly those events, named `F` and carrying the written values in
the order of the `set` calls (no event dropped, reordered or coalesced); in
particular after `set rtk_age 0`, a fresh subscription and five increment
ticks, the subscriber observes exactly the five `rtk_age` events
`1, 2, 3, 4, 5` in order. -/
theorem c1_per_field_delivery :
    (∀ (F : String) (vs : List Int) (s : Sys), F ∈ keys s.store →
        (setSeq F vs s).clients
          = s.clients.map (fun evs => evs ++ vs.map fun v => Event.mk F (eventPayload F v))) ∧
      (tickRtkAge (tickRtkAge (tickRtkAge (tickRtkAge (tickRtkAge
          (subscribe (sysSet { store := roverStore0, clients := [] } "rtk_age" 0))))))).clients
        = [[Event.mk "rtk_age" "1", Event.mk "rtk_age" "2", Event.mk "rtk_age" "3",
            Event.mk "rtk_age" "4", Event.mk "rtk_age" "5"]] :=
  ⟨fun F vs s h => setSeq_clients F vs s h, by decide⟩

/-- Witness for C1 at a concrete input: two writes to `rtk_age` with one
connected client deliver exactly the two events, in order. -/
theorem c1_per_field_delivery_check :
    (setSeq "rtk_age" [3, 4] { store := roverStore0, clients := [[]] }).clients
      = [[Event.mk "rtk_age" "3", Event.mk "rtk_age" "4"]] := by
  rw [c1_per_field_delivery.1 "rtk_age" [3, 4]
      { store := roverStore0, clients := [[]] } (by decide)]
  decide

/-- C2 counterexample: the shipped power page contains the placeholder token
`BATT_CHARGE`, which is not the upper-case form of any field identifier of any
role (the field is `battery_soc` — exactly the event name the same template's
listener uses). -/
theorem c2_placeholder_name_mismatch :
    ((placeholders tc_html).contains "BATT_CHARGE"
      && !(allFieldUppers.contains "BATT_CHARGE")
      && (scriptToks tc_html).contains (ScriptTok.listen "battery_soc")) = true := by decide

/-- C2 amended: every placeholder token in every shipped template is `%NAME%`
with `NAME` either the upper-case form of a field identifier of a role field
set, or one of the three legacy power-page tokens `BATT_CHARGE`,
`BATT_CAPACITY`, `TEMPERATURE` (standing for `battery_soc`,
`battery_capacity`, `tc_temp`, whose event names differ from the token). -/
theorem c2_placeholders_upper_or_legacy :
    (allTemplates.all fun t => (placeholders t).all fun p =>
      allFieldUppers.contains p || legacyPlaceholderNames.contains p) = true := by decide

/-- C3: rendering is total and substitutes the empty string for every
placeholder whose name the lookup does not know: whenever the known values
contain no `%`, the rendered output contains no `%NAME%` token at all; in
particular the scenario template holding `%UP_TIME%` (with `up_time = 42`)
and the undefined `%BOGUS%` renders to `"42,"` — the first token to `"42"`,
the second to `""`. -/
theorem c3_unknown_placeholder_empty :
    (∀ (lookup : String → Option String) (t : String), NoPctLookup lookup →
        placeholders (render lookup t) = []) ∧
      render (lookupStore (setF roverStore0 "up_time" 42)) "%UP_TIME%,%BOGUS%" = "42," :=
  ⟨fun lookup t h => (scanPH_renderAux lookup h t.toList).1, by decide⟩

/-- Witness for C3 at a concrete input: the all-unknown lookup renders the
scenario template to a string with no placeholder tokens left. -/
theorem c3_unknown_placeholder_empty_check :
    placeholders (render (fun _ => none) "%UP_TIME%,%BOGUS%") = [] :=
  c3_unknown_placeholder_empty.1 (fun _ => none) "%UP_TIME%,%BOGUS%"
    (fun _ _ hv => nomatch hv)

/-- C4: rendering is deterministic in the store contents: two snapshots with
the same field-name set and the same stored value for every field render any
template to byte-identical output, because each field's stringification is a
fixed function of the stored value. -/
theorem c4_render_deterministic (st1 st2 : List (String × Int)) (t : String)
    (hk : keys st1 = keys st2) (hg : ∀ f, getF st1 f = getF st2 f) :
    renderStore st1 t = renderStore st2 t := by
  have hl : ∀ n, lookupStore st1 n = lookupStore st2 n := by
    intro n
    unfold lookupStore
    rw [hk]
    cases hfo : fieldOfToken (keys st2) n with
    | none => simp [hfo]
    | some f => simp [hfo, hg f]
  unfold renderStore render
  rw [renderAux_congr (lookupStore st1) (lookupStore st2) hl t.toList none]

/-- Witness for C4 at a concrete input: the rover store and the rover store
after a discarded unknown-field write render the rover RTK page identically. -/
theorem c4_render_deterministic_check :
    renderStore roverStore0 rover_rtk_html
      = renderStore (setF roverStore0 "nope" 1) rover_rtk_html :=
  c4_render_deterministic roverStore0 (setF roverStore0 "nope" 1) rover_rtk_html
    (by decide)
    (fun f => by rw [setF_not_mem roverStore0 "nope" 1 (by decide)])

/-- C5: round-trip formatting: for a field whose upper-cased identifier is
unambiguous in the store, the payload of the streaming event for that field
equals the string substituted for that field's placeholder in a page rendered
against the same snapshot — both sides are the same fixed per-field
stringification `fmtField`. -/
theorem c5_roundtrip_formatting (st : List (String × Int)) (f : String)
    (hm : f ∈ keys st)
    (hinj : ∀ g ∈ keys st, upperName g = upperName f → g = f)
    (hp : '%' ∉ (upperName f).toList) :
    render (lookupStore st) ("%" ++ upperName f ++ "%") = eventPayload f (getF st f) := by
  rw [render_single_ph (lookupStore st) (upperName f) hp, lookupStore_eq st f hm hinj]
  rfl

/-- Witness for C5 at a concrete input: the rover store's `rtk_age` field. -/
theorem c5_roundtrip_formatting_check :
    render (lookupStore roverStore0) ("%" ++ upperName "rtk_age" ++ "%")
      = eventPayload "rtk_age" (getF roverStore0 "rtk_age") :=
  c5_roundtrip_formatting roverStore0 "rtk_age" (by decide) (by decide) (by decide)

/-- C6: writing an unknown field name leaves the system unchanged: the store
(hence the value of every defined field, witnessed by `getF`) is untouched,
the field-name set is not extended, no event reaches any client, and no error
is propagated (the operation is total and returns the unchanged state). -/
theorem c6_unknown_field_frame (s : Sys) (f : String) (v : Int)
    (h : f ∉ keys s.store) :
    sysSet s f v = s ∧ (∀ g, getF (setF s.store f v) g = getF s.store g) ∧
      keys (setF s.store f v) = keys s.store := by
  have hst : setF s.store f v = s.store := setF_not_mem s.store f v h
  refine ⟨?_, fun g => by rw [hst], keys_setF s.store f v⟩
  show ({ store := setF s.store f v, clients := _ } : Sys) = s
  rw [if_neg h, hst]

/-- Witness for C6 at a concrete input: an unknown-field write on the rover
system with one connected client. -/
theorem c6_unknown_field_frame_check :
    sysSet { store := roverStore0, clients := [[]] } "bogus" 7
        = { store := roverStore0, clients := [[]] } ∧
      (∀ g, getF (setF roverStore0 "bogus" 7) g = getF roverStore0 g) ∧
      keys (setF roverStore0 "bogus" 7) = keys roverStore0 :=
  c6_unknown_field_frame { store := roverStore0, clients := [[]] } "bogus" 7 (by decide)

/-- C7: `GET /loc` returns exactly the stringified `lattitude` field, one
comma, then the stringified `longitude` field, with no template processing;
after `set lattitude 39.281507` and `set longitude -74.558350` (stored as
fixed-point micro-degrees) the body is exactly `"39.281507,-74.558350"`. -/
theorem c7_loc_response :
    locResponse (setF (setF roverStore0 "lattitude" 39281507) "longitude" (-74558350))
      = "39.281507,-74.558350" := by decide

/-- C8 counterexample: `lattitude` is a rover field, yet the rover RTK page
template contains no `%LATTITUDE%` placeholder (the coordinate placeholders
live in the separate rover GNSS page). -/
theorem c8_rtk_missing_lattitude :
    (roverFields.contains "lattitude"
      && !(placeholders rover_rtk_html).contains (upperName "lattitude")) = true := by decide

/-- C8 amended: every rover field's placeholder appears in the rover RTK
template or in the rover GNSS template, and the fields missing from the RTK
template are exactly `lattitude` and `longitude`. -/
theorem c8_fields_covered_rtk_or_gnss :
    ((roverFields.all fun f =>
        (placeholders rover_rtk_html).contains (upperName f)
          || (placeholders gnss_html).contains (upperName f))
      && ((roverFields.filter fun f =>
            !(placeholders rover_rtk_html).contains (upperName f))
          == ["lattitude", "longitude"])) = true := by decide

/-- C9 counterexample: `generateTable` invoked with data whose
(constellation, PRN) key `(GPS, 5)` is already present in the table appends a
second row for that key instead of replacing the existing one — the table
ends up with two rows keyed `(GPS, 5)`. -/
theorem c9_duplicate_key_appended :
    countKey (generateTable ["GPS", "5", "100", "45", "40"]
        [["GPS", "5", "90", "40", "38"]]) ("GPS", "5") = 2 := by decide

/-- C9 amended: the shipped `generateTable` appends exactly one row per call,
built from `sat_table_string`, regardless of whether its (constellation, PRN)
key is already present — so a key already in the table gains a duplicate row
rather than being replaced in place (the merge-by-key loops in the source are
commented out). -/
theorem c9_generateTable_appends (s : List String) (t : List (List String))
    (k : String × String) :
    generateTable s t = t ++ [mkRow s] ∧
      countKey (generateTable s t) k
        = countKey t k + (if rowKey (mkRow s) = k then 1 else 0) := by
  refine ⟨rfl, ?_⟩
  unfold countKey generateTable
  rw [List.filter_append, List.length_append]
  by_cases h : rowKey (mkRow s) = k
  · simp [h]
  · simp [h]

/-- C10: in every shipped template, every field-named streaming-event listener
writes its payload into exactly one DOM element; that element id names exactly
one span of the same template, and that span's initial content is precisely
the placeholder token displayed for the field the event is named after
(`battery_soc` targets `b_soc` holding `%BATT_CHARGE%`, `tc_temp` targets
`temp` holding `%TEMPERATURE%`, and so on). -/
theorem c10_listener_span_correspondence :
    (allTemplates.all listenerSpanOk) = true := by decide

end TinkerRTK
